import Mathlib

/-!
Verification development for the FovePythonBindings repository
(`src/bindings.cpp`, `src/bindings.h`, `src/Fove_CAPI_pybind11.cpp`).

The repository is a pybind11 binding layer over the external FOVE C SDK.
This file gives a shallow embedding of the binding-side code:

* `float` fields are modelled by exact arithmetic in a field `K`
  (`ℚ` where everything is closed-form, `ℝ` where `std::sqrt` appears);
  floating-point rounding is not modelled.
* C pointers are modelled by their address, a `Nat`.
* the external `fove_*` entry points are modelled as oracle functions
  supplied as parameters; each wrapper embedding additionally returns the
  list of oracle invocations it performed, with the arguments it passed.
* C++ exceptions (`throw std::runtime_error`) are modelled by
  `Except String`.
-/

namespace FoveBindings

/-- Quaternion struct `Fove_Quaternion` (four `float` members `x y z w`),
modelled over an arbitrary field `K`. -/
structure Quat (K : Type) where
  x : K
  y : K
  z : K
  w : K
deriving DecidableEq

/-- Vector struct `Fove_Vec3` (three `float` members `x y z`). -/
structure Vec3 (K : Type) where
  x : K
  y : K
  z : K
deriving DecidableEq

variable {K : Type} [Field K]

/-- Quaternion product operator `__mul__` of `defstruct_Quaternion`
(bindings.cpp, the lambda on two quaternions): the component formulas are
transcribed verbatim from the binding code. -/
def quatMul (q1 q2 : Quat K) : Quat K :=
  ⟨q1.w * q2.x + q1.x * q2.w + q1.y * q2.z - q1.z * q2.y,
   q1.w * q2.y + q1.y * q2.w + q1.z * q2.x - q1.x * q2.z,
   q1.w * q2.z + q1.z * q2.w + q1.x * q2.y - q1.y * q2.x,
   q1.w * q2.w - q1.x * q2.x - q1.y * q2.y - q1.z * q2.z⟩

/-- Scalar rescaling operators `__mul__`/`__rmul__` of `defstruct_Quaternion`. -/
def quatScale (a : K) (q : Quat K) : Quat K :=
  ⟨a * q.x, a * q.y, a * q.z, a * q.w⟩

/-- Negation operator `__neg__` of `defstruct_Quaternion`. -/
def quatNeg (q : Quat K) : Quat K :=
  ⟨-q.x, -q.y, -q.z, -q.w⟩

/-- The squared norm `norm2` computed inside `normalise` and `invert` of
`defstruct_Quaternion`. -/
def qnorm2 (q : Quat K) : K :=
  q.x * q.x + q.y * q.y + q.z * q.z + q.w * q.w

/-- Conjugation method `conjugate` of `defstruct_Quaternion`. -/
def quatConjugate (q : Quat K) : Quat K :=
  ⟨-q.x, -q.y, -q.z, q.w⟩

/-- Inversion method `invert` of `defstruct_Quaternion`: the binding rescales
the conjugate by `a = 1 / norm2`.  The binding source carries the comment that
this diverges from `FoveMath.h`. -/
def quatInvert (q : Quat K) : Quat K :=
  let a := 1 / qnorm2 q
  ⟨(-a) * q.x, (-a) * q.y, (-a) * q.z, a * q.w⟩

/-- Normalisation method `normalise` of `defstruct_Quaternion`: rescaling by
`a = 1 / sqrt norm2` (the binding calls `std::sqrt`, modelled by `Real.sqrt`). -/
noncomputable def quatNormalise (q : Quat ℝ) : Quat ℝ :=
  let a := 1 / Real.sqrt (qnorm2 q)
  ⟨a * q.x, a * q.y, a * q.z, a * q.w⟩

/-- Modelled from the spec: `FoveMath.h` belongs to the wrapped native SDK and is
not part of this repository.  The spec describes the binding's quaternion
operators as operations "already provided by the wrapped library's own math
header"; the product such a math header provides is the standard Hamilton
product, written here in the textbook form (scalar part `w₁w₂ - v₁·v₂`,
vector part `w₁v₂ + w₂v₁ + v₁ × v₂`). -/
def fmMul (q1 q2 : Quat K) : Quat K :=
  ⟨q1.w * q2.x + q2.w * q1.x + (q1.y * q2.z - q1.z * q2.y),
   q1.w * q2.y + q2.w * q1.y + (q1.z * q2.x - q1.x * q2.z),
   q1.w * q2.z + q2.w * q1.z + (q1.x * q2.y - q1.y * q2.x),
   q1.w * q2.w - (q1.x * q2.x + q1.y * q2.y + q1.z * q2.z)⟩

/-- Modelled from the spec: negation of a quaternion as provided by the wrapped
math header (componentwise negation). -/
def fmNeg (q : Quat K) : Quat K :=
  ⟨-q.x, -q.y, -q.z, -q.w⟩

/-- Modelled from the spec: quaternion conjugation as provided by the wrapped
math header (negate the vector part, keep the scalar part). -/
def fmConjugate (q : Quat K) : Quat K :=
  ⟨-q.x, -q.y, -q.z, q.w⟩

/-- Modelled from the spec: quaternion normalisation as provided by the wrapped
math header, `q / |q|` with `|q| = sqrt (norm2 q)`. -/
noncomputable def fmNormalise (q : Quat ℝ) : Quat ℝ :=
  ⟨q.x / Real.sqrt (qnorm2 q), q.y / Real.sqrt (qnorm2 q),
   q.z / Real.sqrt (qnorm2 q), q.w / Real.sqrt (qnorm2 q)⟩

/-- Modelled from the spec: quaternion inversion as provided by the wrapped math
header.  The binding's own comment on `invert` states that the binding diverges
from `FoveMath.h` in that the binding rescales by the inverse of the original
(squared) norm; the math header's inverse is therefore the plain conjugate, the
inverse of a unit quaternion. -/
def fmInvert (q : Quat K) : Quat K :=
  ⟨-q.x, -q.y, -q.z, q.w⟩

/-- Struct `Fove_Ray` (members `origin`, `direction`). -/
structure Ray (K : Type) where
  origin : Vec3 K
  direction : Vec3 K
deriving DecidableEq

/-- Struct `Fove_ObjectPose` (members `scale`, `rotation`, `position`,
`velocity`). -/
structure ObjectPose (K : Type) where
  scale : Vec3 K
  rotation : Quat K
  position : Vec3 K
  velocity : Vec3 K
deriving DecidableEq

/-- Struct `Fove_BoundingBox` (members `center`, `extend`). -/
structure BoundingBox (K : Type) where
  center : Vec3 K
  extend : Vec3 K
deriving DecidableEq

/-- Enum `Fove_ColliderType`. -/
inductive ColliderType
  | Cube
  | Sphere
  | Mesh
deriving DecidableEq

/-- Struct `Fove_ColliderCube` (member `size`). -/
structure ColliderCube (K : Type) where
  size : Vec3 K
deriving DecidableEq

/-- Struct `Fove_ColliderSphere` (member `radius`). -/
structure ColliderSphere (K : Type) where
  radius : K
deriving DecidableEq

/-- Struct `Fove_ColliderMesh`; the `float*` vertex array and the
`unsigned int*` index array are modelled by their pointer addresses. -/
structure ColliderMesh (K : Type) where
  vertices : Nat
  vertexCount : Nat
  indices : Nat
  triangleCount : Nat
  boundingBox : BoundingBox K
deriving DecidableEq

/-- Struct `Fove_ObjectCollider`.  The C union `shapeDefinition` is modelled as
the three members held side by side: writing one member leaves the other two
stale, and the exposed accessors below never read a member without first
checking `shapeType`, so the C reinterpretation of union bytes never happens
through the binding surface. -/
structure ObjectCollider (K : Type) where
  center : Vec3 K
  shapeType : ColliderType
  cube : ColliderCube K
  sphere : ColliderSphere K
  mesh : ColliderMesh K
deriving DecidableEq

/-- Property setter for `cubeDefinition` of `defstruct_ObjectCollider`: sets
`shapeType` to `Cube` and stores the value in the union. -/
def setCubeDefinition (s : ObjectCollider K) (v : ColliderCube K) : ObjectCollider K :=
  { s with shapeType := ColliderType.Cube, cube := v }

/-- Property setter for `sphereDefinition` of `defstruct_ObjectCollider`. -/
def setSphereDefinition (s : ObjectCollider K) (v : ColliderSphere K) : ObjectCollider K :=
  { s with shapeType := ColliderType.Sphere, sphere := v }

/-- Property setter for `meshDefinition` of `defstruct_ObjectCollider`. -/
def setMeshDefinition (s : ObjectCollider K) (v : ColliderMesh K) : ObjectCollider K :=
  { s with shapeType := ColliderType.Mesh, mesh := v }

/-- Property getter for `cubeDefinition` of `defstruct_ObjectCollider`:
throws `std::runtime_error` unless `shapeType` is `Cube`. -/
def getCubeDefinition (s : ObjectCollider K) : Except String (ColliderCube K) :=
  if s.shapeType ≠ ColliderType.Cube then
    Except.error "Error the collider is not of cube type"
  else
    Except.ok s.cube

/-- Property getter for `sphereDefinition` of `defstruct_ObjectCollider`. -/
def getSphereDefinition (s : ObjectCollider K) : Except String (ColliderSphere K) :=
  if s.shapeType ≠ ColliderType.Sphere then
    Except.error "Error the collider is not of sphere type"
  else
    Except.ok s.sphere

/-- Property getter for `meshDefinition` of `defstruct_ObjectCollider`. -/
def getMeshDefinition (s : ObjectCollider K) : Except String (ColliderMesh K) :=
  if s.shapeType ≠ ColliderType.Mesh then
    Except.error "Error the collider is not of mesh type"
  else
    Except.ok s.mesh

/-! ### Default-argument shims

The binding injects default values in two places: the `default_*` helper
functions near the top of `bindings.cpp`, and the `py::arg`/`py::arg_v`
default arguments of each `py::init`.  Both are embedded, with the ctor
defaults named `ctorDefault_*`. -/

/-- Helper `default_Quaternion()` of bindings.cpp: `{0, 0, 0, 1}`. -/
def default_Quaternion : Quat ℚ := ⟨0, 0, 0, 1⟩

/-- Helper `default_Vec3()` of bindings.cpp: `{0, 0, 0}`. -/
def default_Vec3 : Vec3 ℚ := ⟨0, 0, 0⟩

/-- Helper `default_ObjectPose()` of bindings.cpp: scale `{1,1,1}`, default
rotation, default position and velocity. -/
def default_ObjectPose : ObjectPose ℚ :=
  ⟨⟨1, 1, 1⟩, default_Quaternion, default_Vec3, default_Vec3⟩

/-- The `py::arg` defaults of `Quaternion.__init__` in `defstruct_Quaternion`:
`x = 0.0f, y = 0.0f, z = 0.0f, w = 1.0f`. -/
def ctorDefault_Quaternion : Quat ℚ := ⟨0, 0, 0, 1⟩

/-- The `py::arg_v` defaults of `Ray.__init__` in `defstruct_Ray`:
`origin = Vec3{0,0,0}`, `direction = Vec3{0,0,1}`. -/
def ctorDefault_Ray : Ray ℚ := ⟨⟨0, 0, 0⟩, ⟨0, 0, 1⟩⟩

/-- The `py::arg_v` defaults of `ObjectPose.__init__` in `defstruct_ObjectPose`:
`scale = Vec3{1,1,1}`, `rotation = default_Quaternion()`,
`position = default_Vec3()`, `velocity = default_Vec3()`. -/
def ctorDefault_ObjectPose : ObjectPose ℚ :=
  ⟨⟨1, 1, 1⟩, default_Quaternion, default_Vec3, default_Vec3⟩

/-- The `py::arg_v` default of `ColliderCube.__init__` in
`defstruct_ColliderCube`: `size = Vec3{1,1,1}`. -/
def ctorDefault_ColliderCube : ColliderCube ℚ := ⟨⟨1, 1, 1⟩⟩

/-- The `py::arg` default of `ColliderSphere.__init__` in
`defstruct_ColliderSphere`: `radius = 0.5f`. -/
def ctorDefault_ColliderSphere : ColliderSphere ℚ := ⟨1 / 2⟩

/-! ### Buffer-protocol helpers

`py::buffer_info` descriptors produced by `define_1D_buffer_protocol` and
`define_2D_buffer_protocol`.  Sizes are in bytes; `sizeof(Elem)` is passed as
the `elemSize` parameter. -/

/-- The fields of a `py::buffer_info` descriptor that the helpers fill in:
item size, number of dimensions, dimensions, strides (all in bytes). -/
structure BufferDescriptor where
  itemsize : Nat
  ndim : Nat
  dims : List Nat
  strides : List Nat
deriving DecidableEq

/-- `define_1D_buffer_protocol<Elem, Size>` of bindings.cpp: descriptor
`{sizeof(Elem), 1 dim, {Size}, {sizeof(Elem)}}` for a C array `Elem[Size]`. -/
def define_1D_buffer_protocol (elemSize size : Nat) : BufferDescriptor :=
  ⟨elemSize, 1, [size], [elemSize]⟩

/-- `define_2D_buffer_protocol<Elem, Rows, Cols>` of bindings.cpp: descriptor
`{sizeof(Elem), 2 dims, {Rows, Cols}, {sizeof(Elem)*Cols, sizeof(Elem)}}` for a
C array `Elem[Rows][Cols]`. -/
def define_2D_buffer_protocol (elemSize rows cols : Nat) : BufferDescriptor :=
  ⟨elemSize, 2, [rows, cols], [elemSize * cols, elemSize]⟩

/-- Byte offset addressed by a multi-index under the buffer protocol: the sum
of index components multiplied by the corresponding strides. -/
def bufOffset (b : BufferDescriptor) (idx : List Nat) : Nat :=
  (idx.zip b.strides).foldr (fun p acc => p.1 * p.2 + acc) 0

/-- `assert_layout<Struct, Elem, Size>` of bindings.cpp: the compile-time check
`sizeof(Struct) == Size * sizeof(Elem)`, as a proposition on the byte sizes. -/
def assert_layout (structSize elemSize size : Nat) : Prop :=
  structSize = size * elemSize

/-! ### Mesh buffer construction (`VertexBuffer`, `IndexBuffer`)

The buffers received from the host language are pybind11 `buffer_info`
requests; the fields the binding inspects are modelled in `PyBuffer`.
`ndim` is the length of `shape`, as pybind11 guarantees; well-formedness of
`strides` (one stride per dimension) is taken as a hypothesis where needed. -/

/-- Element formats distinguishable through `py::format_descriptor`. -/
inductive BufFormat
  | f32
  | f64
  | i32
  | u32
  | u8
  | u64
deriving DecidableEq

/-- The fields of an incoming `py::buffer_info` that the constructors of
`VertexBuffer` and `IndexBuffer` inspect.  `ptr` is the buffer address. -/
structure PyBuffer where
  ptr : Nat
  format : BufFormat
  shape : List Nat
  strides : List Nat
deriving DecidableEq

/-- Binding-side struct `VertexBuffer` (a `float*` plus a vertex count). -/
structure VertexBuffer where
  vertices : Nat
  vertexCount : Nat
deriving DecidableEq

/-- Binding-side struct `IndexBuffer` (an `unsigned int*` plus a triangle
count). -/
structure IndexBuffer where
  indices : Nat
  triangleCount : Nat
deriving DecidableEq

/-- The `VertexBuffer.__init__` lambda of `defstruct_VertexBuffer`: the sanity
checks in source order, then `VertexBuffer{ptr, shape[0] * 3}`.
`sizeof(float) = 4`. -/
def mkVertexBuffer (b : PyBuffer) : Except String VertexBuffer :=
  if b.format ≠ BufFormat.f32 then
    Except.error "Incompatible format: expected a float array!"
  else if b.shape.length ≠ 2 then
    Except.error "Incompatible buffer dimension!"
  else if b.shape.getD 1 0 ≠ 3 then
    Except.error "Vertex should be composed of 3 components (x,y,z)!"
  else if b.strides.getD 0 0 ≠ 3 * 4 then
    Except.error "Row stride should be 3 floats"
  else if b.strides.getD 1 0 ≠ 4 then
    Except.error "Col stride should be 1 float"
  else
    Except.ok ⟨b.ptr, b.shape.getD 0 0 * 3⟩

/-- The `IndexBuffer.__init__` lambda of `defstruct_IndexBuffer`: the checks in
source order (note: no format check), then `IndexBuffer{ptr, shape[0] / 3}`.
`sizeof(unsigned int) = 4`. -/
def mkIndexBuffer (b : PyBuffer) : Except String IndexBuffer :=
  if b.shape.length ≠ 1 then
    Except.error "Incompatible buffer dimension!"
  else if b.strides.getD 0 0 ≠ 4 then
    Except.error "Row stride should be 1 unsigned int"
  else if b.shape.getD 0 0 % 3 ≠ 0 then
    Except.error "Index buffer index count should be a multiple of 3 as it represent triangles"
  else
    Except.ok ⟨b.ptr, b.shape.getD 0 0 / 3⟩

/-! ### `Fove_ClientCapabilities` flag operators

The enum values are `int` bit patterns; `operator|`, `operator&` and
`operator~` (bindings.cpp lines 118-120, copied from `FoveAPI.h`) cast to
`int`, apply the bitwise operation, and cast back.  A 32-bit `int` pattern of
a capability set is modelled as a natural number below `2^32`; the `int`
complement `~` is xor with the all-ones 32-bit pattern. -/

/-- `operator|` on `Fove_ClientCapabilities`, used by `__or__` and `__add__`. -/
def capOr (a b : ℕ) : ℕ := a ||| b

/-- `operator&` on `Fove_ClientCapabilities`, used by `__and__`, `__sub__` and
`__contains__`. -/
def capAnd (a b : ℕ) : ℕ := a &&& b

/-- `operator~` on `Fove_ClientCapabilities` (the `int` complement, as a
32-bit pattern). -/
def capNot (a : ℕ) : ℕ := a ^^^ (2 ^ 32 - 1)

/-- The `__add__` operator of `defenum_ClientCapabilities`: `cap1 | cap2`. -/
def capAdd (a b : ℕ) : ℕ := capOr a b

/-- The `__sub__` operator of `defenum_ClientCapabilities`: `cap1 & ~cap2`. -/
def capSub (a b : ℕ) : ℕ := capAnd a (capNot b)

/-- The `__contains__` operator of `defenum_ClientCapabilities`:
`(cap1 & cap2) == cap2`. -/
def capContains (a b : ℕ) : Prop := capAnd a b = b

instance (a b : ℕ) : Decidable (capContains a b) :=
  inferInstanceAs (Decidable (capAnd a b = b))

/-! ### The C API wrappers of `bind_CAPIs`

The external `fove_*` entry points are modelled as oracles passed to the
wrapper embeddings.  Each wrapper returns the managed values it delivers
together with the chronological list of oracle invocations it performed,
recording the arguments passed to the native code. -/

/-- Enum `Fove_ErrorCode`, transcribed from `defenum_ErrorCode`. -/
inductive ErrorCode
  | None
  | Connect_NotConnected
  | Connect_RuntimeVersionTooOld
  | Connect_ClientVersionTooOld
  | API_InvalidArgument
  | API_NotRegistered
  | API_NullInPointer
  | API_InvalidEnumValue
  | API_NullOutPointersOnly
  | API_OverlappingOutPointers
  | API_MissingArgument
  | API_Timeout
  | API_AlreadyInTheDesiredState
  | Data_Unreadable
  | Data_NoUpdate
  | Data_Uncalibrated
  | Data_Unreliable
  | Data_LowAccuracy
  | Hardware_Disconnected
  | Hardware_WrongFirmwareVersion
  | Code_NotImplementedYet
  | Code_FunctionDeprecated
  | Position_ObjectNotTracked
  | Compositor_NotSwapped
  | Compositor_UnableToCreateDeviceAndContext
  | Compositor_UnableToUseTexture
  | Compositor_DeviceMismatch
  | Compositor_DisconnectedFromRuntime
  | Compositor_ErrorCreatingTexturesOnDevice
  | Compositor_NoEyeSpecifiedForSubmit
  | UnknownError
  | Object_AlreadyRegistered
  | Render_OtherRendererPrioritized
  | License_FeatureAccessDenied
  | Profile_DoesntExist
  | Profile_NotAvailable
  | Profile_InvalidName
  | Config_DoesntExist
  | Config_TypeMismatch
  | System_UnknownError
  | System_PathNotFound
  | System_AccessDenied
deriving DecidableEq

/-- Enum `Fove_Eye`, transcribed from `defenum_Eye`. -/
inductive Eye
  | Left
  | Right
deriving DecidableEq

/-- An opaque `Fove_Headset*` handle, modelled by its address. -/
def Headset : Type := Nat

instance : OfNat Headset 0 := ⟨(0 : Nat)⟩
instance : DecidableEq Headset := inferInstanceAs (DecidableEq Nat)

/-- Oracle for the native entry point `fove_Headset_getGazeVector`: given the
headset handle and the eye, it produces the returned error code and the vector
written through the out pointer. -/
def GazeVectorNative : Type := Headset → Eye → ErrorCode × Vec3 ℚ

/-- Embedding of the `Headset_getGazeVector` wrapper of `bind_CAPIs`: it calls
the native entry point once, forwarding `headset`, `eye` and the out pointer
verbatim, and delivers exactly what the native call produced.  The second
component is the invocation log: every oracle call, with the arguments
passed. -/
def Headset_getGazeVector (native : GazeVectorNative) (headset : Headset) (eye : Eye) :
    (ErrorCode × Vec3 ℚ) × List (Headset × Eye) :=
  (native headset eye, [(headset, eye)])

/-- Native struct `Fove_LicenseInfo` (fixed-size C arrays modelled as their
contents: 16 uuid bytes, and the null-terminated strings). -/
structure LicenseInfo where
  uuid : List Nat
  expirationYear : Int
  expirationMonth : Int
  expirationDay : Int
  licenseType : String
  licensee : String
deriving DecidableEq, Inhabited

/-- Binding-side struct `Python_LicenseInfo`, with the member defaults of its
declaration (`uuid` empty, expirations `0`, strings empty). -/
structure PyLicenseInfo where
  uuid : String
  expirationYear : Int
  expirationMonth : Int
  expirationDay : Int
  licenseType : String
  licensee : String
deriving DecidableEq

/-- A default-constructed `Python_LicenseInfo` (the state of a freshly resized
`vector<Python_LicenseInfo>` element before the copy loop runs). -/
def defaultPyLicenseInfo : PyLicenseInfo := ⟨"", 0, 0, 0, "", ""⟩

/-- The per-license copy performed by the loop body of `Headset_queryLicenses`:
the expiration fields and both strings are copied; the uuid copy is commented
out in the source, so `uuid` keeps its default. -/
def toPyLicenseInfo (li : LicenseInfo) : PyLicenseInfo :=
  ⟨"", li.expirationYear, li.expirationMonth, li.expirationDay,
   li.licenseType, li.licensee⟩

/-- Oracle for the native entry point `fove_Headset_queryLicenses`.  The entry
point is called in two modes: with a null buffer (`probe`, writing only the
license count) or with a buffer of a given capacity (`fill`, returning the
error code, the updated count, and the licenses written into the buffer). -/
structure QueryLicensesNative where
  probe : Headset → ErrorCode × Nat
  fill : Headset → Nat → ErrorCode × Nat × List LicenseInfo

/-- Embedding of the `Headset_queryLicenses` wrapper of `bind_CAPIs`.  It
first calls the native entry point with a null buffer to obtain the count; on
failure it stores that error and returns an empty list.  If the count is
positive it allocates a buffer of that capacity and calls the native entry
point a second time; on failure it stores that error and returns an empty
list, otherwise it copies the (updated) count of native licenses into managed
values.  Reading a buffer slot the native code did not fill yields the
default-constructed value.  Delivered: the managed list and the stored error
out-parameter; second component: the invocation log (`none` encodes the null
buffer, `some n` a buffer of capacity `n`). -/
def Headset_queryLicenses (native : QueryLicensesNative) (headset : Headset) :
    (List PyLicenseInfo × ErrorCode) × List (Headset × Option Nat) :=
  let r1 := native.probe headset
  if r1.1 ≠ ErrorCode.None then
    (([], r1.1), [(headset, none)])
  else if r1.2 = 0 then
    (([], r1.1), [(headset, none)])
  else
    let r2 := native.fill headset r1.2
    if r2.1 ≠ ErrorCode.None then
      (([], r2.1), [(headset, none), (headset, some r1.2)])
    else
      (((List.range r2.2.1).map fun i => toPyLicenseInfo (r2.2.2.getD i default), r2.1),
       [(headset, none), (headset, some r1.2)])

/-- Binding-side struct `Python_HeadsetHardwareInfo` (the three strings). -/
structure PyHeadsetHardwareInfo where
  serialNumber : String
  manufacturer : String
  modelName : String
deriving DecidableEq

/-- Oracle for the native entry point `fove_Headset_queryHardwareInfo`: the
returned error code and the three C strings written into
`Fove_HeadsetHardwareInfo`. -/
def HardwareInfoNative : Type := Headset → ErrorCode × String × String × String

/-- Embedding of the `Headset_queryHardwareInfo` wrapper of `bind_CAPIs`: one
native call; the three strings are copied into the managed out-parameter and
the native error code is returned unchanged.  Second component: the
invocation log. -/
def Headset_queryHardwareInfo (native : HardwareInfoNative) (headset : Headset) :
    (PyHeadsetHardwareInfo × ErrorCode) × List Headset :=
  let r := native headset
  ((⟨r.2.1, r.2.2.1, r.2.2.2⟩, r.1), [headset])

/-! ### Inventory of the types exposed to the host language

Transcription of every `py::class_` and `py::enum_` registration in
`bindings.cpp`, in source registration order.  For each exposed type the
inventory records the python-side name, the C++ type bound, whether that C++
type comes from the native SDK header (`FoveAPI.h`) or is declared inside
`bindings.cpp` itself, and — for binding-declared types — the native SDK data
the type exists to marshal. -/

/-- Where the C++ type behind an exposed python type is declared. -/
inductive TypeOrigin
  | nativeSDK
  | bindingDefined
deriving DecidableEq

/-- One `py::class_`/`py::enum_` registration. -/
structure ExposedType where
  pyName : String
  cppName : String
  origin : TypeOrigin
  marshals : Option String
deriving DecidableEq

/-- The full registration list of `bindings.cpp`. -/
def exposedTypes : List ExposedType :=
  [⟨"Fove_Headset", "Obj<Fove_Headset*>", TypeOrigin.bindingDefined, some "Fove_Headset* handle"⟩,
   ⟨"Fove_Compositor", "Obj<Fove_Compositor*>", TypeOrigin.bindingDefined, some "Fove_Compositor* handle"⟩,
   ⟨"ClientCapabilities", "Fove_ClientCapabilities", TypeOrigin.nativeSDK, none⟩,
   ⟨"ErrorCode", "Fove_ErrorCode", TypeOrigin.nativeSDK, none⟩,
   ⟨"CompositorLayerType", "Fove_CompositorLayerType", TypeOrigin.nativeSDK, none⟩,
   ⟨"ObjectGroup", "Fove_ObjectGroup", TypeOrigin.nativeSDK, none⟩,
   ⟨"Versions", "Python_Versions", TypeOrigin.bindingDefined, some "Fove_Versions"⟩,
   ⟨"LicenseInfo", "Python_LicenseInfo", TypeOrigin.bindingDefined, some "Fove_LicenseInfo"⟩,
   ⟨"HeadsetHardwareInfo", "Python_HeadsetHardwareInfo", TypeOrigin.bindingDefined, some "Fove_HeadsetHardwareInfo"⟩,
   ⟨"Quaternion", "Fove_Quaternion", TypeOrigin.nativeSDK, none⟩,
   ⟨"Vec3", "Fove_Vec3", TypeOrigin.nativeSDK, none⟩,
   ⟨"Vec2", "Fove_Vec2", TypeOrigin.nativeSDK, none⟩,
   ⟨"Vec2i", "Fove_Vec2i", TypeOrigin.nativeSDK, none⟩,
   ⟨"Ray", "Fove_Ray", TypeOrigin.nativeSDK, none⟩,
   ⟨"FrameTimestamp", "Fove_FrameTimestamp", TypeOrigin.nativeSDK, none⟩,
   ⟨"Pose", "Fove_Pose", TypeOrigin.nativeSDK, none⟩,
   ⟨"LogLevel", "Fove_LogLevel", TypeOrigin.nativeSDK, none⟩,
   ⟨"Eye", "Fove_Eye", TypeOrigin.nativeSDK, none⟩,
   ⟨"EyeState", "Fove_EyeState", TypeOrigin.nativeSDK, none⟩,
   ⟨"Matrix44", "Obj<Fove_Matrix44>", TypeOrigin.bindingDefined, some "Fove_Matrix44"⟩,
   ⟨"ProjectionParams", "Fove_ProjectionParams", TypeOrigin.nativeSDK, none⟩,
   ⟨"BoundingBox", "Fove_BoundingBox", TypeOrigin.nativeSDK, none⟩,
   ⟨"ObjectPose", "Fove_ObjectPose", TypeOrigin.nativeSDK, none⟩,
   ⟨"ColliderType", "Fove_ColliderType", TypeOrigin.nativeSDK, none⟩,
   ⟨"ColliderCube", "Fove_ColliderCube", TypeOrigin.nativeSDK, none⟩,
   ⟨"ColliderSphere", "Fove_ColliderSphere", TypeOrigin.nativeSDK, none⟩,
   ⟨"VertexBuffer", "VertexBuffer", TypeOrigin.bindingDefined, some "float* vertex array of Fove_ColliderMesh"⟩,
   ⟨"IndexBuffer", "IndexBuffer", TypeOrigin.bindingDefined, some "unsigned int* index array of Fove_ColliderMesh"⟩,
   ⟨"ColliderMesh", "Fove_ColliderMesh", TypeOrigin.nativeSDK, none⟩,
   ⟨"ObjectCollider", "Fove_ObjectCollider", TypeOrigin.nativeSDK, none⟩,
   ⟨"ColliderArray", "ColliderArray", TypeOrigin.bindingDefined, some "Fove_ObjectCollider array"⟩,
   ⟨"GazableObject", "Fove_GazableObject", TypeOrigin.nativeSDK, none⟩,
   ⟨"CameraObject", "Fove_CameraObject", TypeOrigin.nativeSDK, none⟩,
   ⟨"GraphicsAPI", "Fove_GraphicsAPI", TypeOrigin.nativeSDK, none⟩,
   ⟨"AlphaMode", "Fove_AlphaMode", TypeOrigin.nativeSDK, none⟩,
   ⟨"CompositorLayerCreateInfo", "Fove_CompositorLayerCreateInfo", TypeOrigin.nativeSDK, none⟩,
   ⟨"CompositorLayer", "Fove_CompositorLayer", TypeOrigin.nativeSDK, none⟩,
   ⟨"CompositorTexture", "Fove_CompositorTexture", TypeOrigin.nativeSDK, none⟩,
   ⟨"DX11Texture", "Fove_DX11Texture", TypeOrigin.nativeSDK, none⟩,
   ⟨"GLTexture", "Fove_GLTexture", TypeOrigin.nativeSDK, none⟩,
   ⟨"MetalTexture", "Fove_MetalTexture", TypeOrigin.nativeSDK, none⟩,
   ⟨"TextureBounds", "Fove_TextureBounds", TypeOrigin.nativeSDK, none⟩,
   ⟨"CompositorLayerEyeSubmitInfo", "Fove_CompositorLayerEyeSubmitInfo", TypeOrigin.nativeSDK, none⟩,
   ⟨"CompositorLayerSubmitInfo", "Fove_CompositorLayerSubmitInfo", TypeOrigin.nativeSDK, none⟩,
   ⟨"AdapterId", "Fove_AdapterId", TypeOrigin.nativeSDK, none⟩,
   ⟨"Buffer", "Fove_Buffer", TypeOrigin.nativeSDK, none⟩,
   ⟨"EyeShape", "Obj<Fove_EyeShape>", TypeOrigin.bindingDefined, some "Fove_EyeShape"⟩,
   ⟨"PupilShape", "Fove_PupilShape", TypeOrigin.nativeSDK, none⟩,
   ⟨"BitmapImage", "Fove_BitmapImage", TypeOrigin.nativeSDK, none⟩,
   ⟨"CalibrationTarget", "Fove_CalibrationTarget", TypeOrigin.nativeSDK, none⟩,
   ⟨"CalibrationState", "Fove_CalibrationState", TypeOrigin.nativeSDK, none⟩,
   ⟨"CalibrationMethod", "Fove_CalibrationMethod", TypeOrigin.nativeSDK, none⟩,
   ⟨"EyeByEyeCalibration", "Fove_EyeByEyeCalibration", TypeOrigin.nativeSDK, none⟩,
   ⟨"EyeTorsionCalibration", "Fove_EyeTorsionCalibration", TypeOrigin.nativeSDK, none⟩,
   ⟨"CalibrationData", "CalibrationData", TypeOrigin.bindingDefined, some "Fove_CalibrationData"⟩,
   ⟨"HmdAdjustmentData", "Fove_HmdAdjustmentData", TypeOrigin.nativeSDK, none⟩,
   ⟨"CalibrationOptions", "Fove_CalibrationOptions", TypeOrigin.nativeSDK, none⟩,
   ⟨"Bool", "Obj<bool>", TypeOrigin.bindingDefined, some "bool out-parameter"⟩,
   ⟨"Int", "Obj<int>", TypeOrigin.bindingDefined, some "int out-parameter"⟩,
   ⟨"Float", "Obj<float>", TypeOrigin.bindingDefined, some "float out-parameter"⟩,
   ⟨"String", "Obj<std::string>", TypeOrigin.bindingDefined, some "string out-parameter"⟩,
   ⟨"EyeStateObj", "Obj<Fove_EyeState>", TypeOrigin.bindingDefined, some "Fove_EyeState out-parameter"⟩,
   ⟨"CalibrationStateObj", "Obj<Fove_CalibrationState>", TypeOrigin.bindingDefined, some "Fove_CalibrationState out-parameter"⟩]

/-! ### Concrete instances used in witnesses and counterexamples -/

/-- A concrete native license record. -/
def sampleLicense : LicenseInfo :=
  ⟨[], 2028, 1, 31, "Professional", "Example Licensee"⟩

/-- A concrete `fove_Headset_queryLicenses` oracle: the probe succeeds and
reports one license, the fill succeeds and writes it. -/
def oneLicenseNative : QueryLicensesNative :=
  ⟨fun _ => (ErrorCode.None, 1), fun _ _ => (ErrorCode.None, 1, [sampleLicense])⟩

/-- A concrete `fove_Headset_queryLicenses` oracle whose probe call fails. -/
def failingLicenseNative : QueryLicensesNative :=
  ⟨fun _ => (ErrorCode.Connect_NotConnected, 0), fun _ _ => (ErrorCode.None, 0, [])⟩

/-- A concrete `ObjectCollider` currently holding a sphere shape. -/
def sampleSphereCollider : ObjectCollider ℚ :=
  ⟨⟨0, 0, 0⟩, ColliderType.Sphere, ⟨⟨0, 0, 0⟩⟩, ⟨1 / 2⟩, ⟨0, 0, 0, 0, ⟨⟨0, 0, 0⟩, ⟨0, 0, 0⟩⟩⟩⟩

end FoveBindings

namespace FoveBindings

/-! ## Theorems -/

/-- Claim C7: the default-argument shims give the constructible structs fixed
default values: a default `Quaternion` is `(0,0,0,1)`, a default `Ray` has
direction `(0,0,1)`, a default `ObjectPose` has scale `(1,1,1)`, a default
`ColliderCube` has size `(1,1,1)`, and a default `ColliderSphere` has radius
`0.5`; the `default_*` helpers and the constructor argument defaults agree. -/
theorem default_shims_fixed_values :
    default_Quaternion = ⟨0, 0, 0, 1⟩ ∧
    ctorDefault_Quaternion = default_Quaternion ∧
    ctorDefault_Ray.direction = ⟨0, 0, 1⟩ ∧
    ctorDefault_ObjectPose.scale = ⟨1, 1, 1⟩ ∧
    ctorDefault_ObjectPose = default_ObjectPose ∧
    ctorDefault_ColliderCube.size = ⟨1, 1, 1⟩ ∧
    ctorDefault_ColliderSphere.radius = 1 / 2 :=
  ⟨rfl, rfl, rfl, rfl, rfl, rfl, rfl⟩

/-- Claim C8: `ObjectCollider` keeps its tagged union consistent: each of the
three property setters sets `shapeType` to the corresponding collider type and
stores the assigned shape, and each of the three property getters succeeds
exactly when `shapeType` equals the corresponding type, raising an exception
in every other case. -/
theorem objectCollider_tagged_union :
    (∀ (s : ObjectCollider ℚ) (v : ColliderCube ℚ),
        (setCubeDefinition s v).shapeType = ColliderType.Cube ∧
        getCubeDefinition (setCubeDefinition s v) = Except.ok v) ∧
    (∀ (s : ObjectCollider ℚ) (v : ColliderSphere ℚ),
        (setSphereDefinition s v).shapeType = ColliderType.Sphere ∧
        getSphereDefinition (setSphereDefinition s v) = Except.ok v) ∧
    (∀ (s : ObjectCollider ℚ) (v : ColliderMesh ℚ),
        (setMeshDefinition s v).shapeType = ColliderType.Mesh ∧
        getMeshDefinition (setMeshDefinition s v) = Except.ok v) ∧
    (∀ s : ObjectCollider ℚ,
        ((∃ c, getCubeDefinition s = Except.ok c) ↔ s.shapeType = ColliderType.Cube) ∧
        (s.shapeType ≠ ColliderType.Cube →
          getCubeDefinition s = Except.error "Error the collider is not of cube type")) ∧
    (∀ s : ObjectCollider ℚ,
        ((∃ c, getSphereDefinition s = Except.ok c) ↔ s.shapeType = ColliderType.Sphere) ∧
        (s.shapeType ≠ ColliderType.Sphere →
          getSphereDefinition s = Except.error "Error the collider is not of sphere type")) ∧
    (∀ s : ObjectCollider ℚ,
        ((∃ c, getMeshDefinition s = Except.ok c) ↔ s.shapeType = ColliderType.Mesh) ∧
        (s.shapeType ≠ ColliderType.Mesh →
          getMeshDefinition s = Except.error "Error the collider is not of mesh type")) := by
  refine ⟨fun s v => ⟨rfl, by simp [getCubeDefinition, setCubeDefinition]⟩,
          fun s v => ⟨rfl, by simp [getSphereDefinition, setSphereDefinition]⟩,
          fun s v => ⟨rfl, by simp [getMeshDefinition, setMeshDefinition]⟩,
          fun s => ⟨⟨?_, ?_⟩, ?_⟩, fun s => ⟨⟨?_, ?_⟩, ?_⟩, fun s => ⟨⟨?_, ?_⟩, ?_⟩⟩
  · rintro ⟨c, hc⟩
    by_contra h
    simp [getCubeDefinition, h] at hc
  · intro h
    exact ⟨s.cube, by simp [getCubeDefinition, h]⟩
  · intro h
    simp [getCubeDefinition, h]
  · rintro ⟨c, hc⟩
    by_contra h
    simp [getSphereDefinition, h] at hc
  · intro h
    exact ⟨s.sphere, by simp [getSphereDefinition, h]⟩
  · intro h
    simp [getSphereDefinition, h]
  · rintro ⟨c, hc⟩
    by_contra h
    simp [getMeshDefinition, h] at hc
  · intro h
    exact ⟨s.mesh, by simp [getMeshDefinition, h]⟩
  · intro h
    simp [getMeshDefinition, h]

/-- Witness for claim C8, at a collider holding a sphere: reading the cube
member fails with the exception message, and after assigning a cube the tag is
`Cube` and the cube reads back. -/
theorem objectCollider_tagged_union_witness :
    (sampleSphereCollider.shapeType ≠ ColliderType.Cube ∧
      getCubeDefinition sampleSphereCollider =
        Except.error "Error the collider is not of cube type") ∧
    ((setCubeDefinition sampleSphereCollider ⟨⟨1, 1, 1⟩⟩).shapeType = ColliderType.Cube ∧
      getCubeDefinition (setCubeDefinition sampleSphereCollider ⟨⟨1, 1, 1⟩⟩) =
        Except.ok ⟨⟨1, 1, 1⟩⟩) :=
  ⟨⟨by decide, (objectCollider_tagged_union.2.2.2.1 sampleSphereCollider).2 (by decide)⟩,
   objectCollider_tagged_union.1 sampleSphereCollider ⟨⟨1, 1, 1⟩⟩⟩

/-- Claim C4 (amended): the quaternion convenience operators `__mul__`,
`__neg__`, `normalise` and `conjugate` compute, for every input, the same
result as the corresponding operation of the wrapped library's math header;
`invert` agrees with the math header's inverse on quaternions of unit norm
(for other norms it diverges, as the binding's own source comment records). -/
theorem quat_ops_match_math_header :
    (∀ q1 q2 : Quat ℚ, quatMul q1 q2 = fmMul q1 q2) ∧
    (∀ q : Quat ℚ, quatNeg q = fmNeg q) ∧
    (∀ q : Quat ℚ, quatConjugate q = fmConjugate q) ∧
    (∀ q : Quat ℝ, quatNormalise q = fmNormalise q) ∧
    (∀ q : Quat ℚ, qnorm2 q = 1 → quatInvert q = fmInvert q) := by
  refine ⟨fun q1 q2 => ?_, fun q => rfl, fun q => rfl, fun q => ?_, fun q h => ?_⟩
  · simp only [quatMul, fmMul, Quat.mk.injEq]
    exact ⟨by ring, by ring, by ring, by ring⟩
  · simp only [quatNormalise, fmNormalise, Quat.mk.injEq]
    exact ⟨by ring, by ring, by ring, by ring⟩
  · simp only [quatInvert, fmInvert, h, Quat.mk.injEq]
    norm_num

/-- Witness for claim C4, at the unit quaternion `(0,0,0,1)`: its squared norm
is `1` and `invert` agrees with the math header's inverse there. -/
theorem quat_ops_match_math_header_witness :
    qnorm2 (⟨0, 0, 0, 1⟩ : Quat ℚ) = 1 ∧
    quatInvert (⟨0, 0, 0, 1⟩ : Quat ℚ) = fmInvert ⟨0, 0, 0, 1⟩ :=
  ⟨by simp [qnorm2], quat_ops_match_math_header.2.2.2.2 ⟨0, 0, 0, 1⟩ (by simp [qnorm2])⟩

/-- Counterexample to claim C4 as stated: at the non-unit quaternion
`(0,0,0,2)` the binding's `invert` (which rescales the conjugate by
`1 / norm2`) differs from the math header's inverse. -/
theorem quat_invert_diverges_from_math_header :
    quatInvert (⟨0, 0, 0, 2⟩ : Quat ℚ) ≠ fmInvert ⟨0, 0, 0, 2⟩ := by
  intro h
  have hw := congrArg Quat.w h
  simp only [quatInvert, fmInvert, qnorm2] at hw
  norm_num at hw

/-- Counterexample to claim C2 as stated: the binding itself computes numeric
results by its own arithmetic.  `Quaternion.__mul__` — an operation the
binding exposes, whose embedding `quatMul` involves no native oracle at all —
maps the quaternions `i` and `j` to `k`, a numeric value distinct from both of
its inputs, so this result is not produced by the native library. -/
theorem binding_computes_hamilton_product :
    quatMul (⟨1, 0, 0, 0⟩ : Quat ℚ) ⟨0, 1, 0, 0⟩ = ⟨0, 0, 1, 0⟩ ∧
    (⟨0, 0, 1, 0⟩ : Quat ℚ) ≠ ⟨1, 0, 0, 0⟩ ∧
    (⟨0, 0, 1, 0⟩ : Quat ℚ) ≠ ⟨0, 1, 0, 0⟩ := by
  refine ⟨?_, fun h => ?_, fun h => ?_⟩
  · simp only [quatMul, Quat.mk.injEq]
    norm_num
  · have hz := congrArg Quat.z h
    norm_num at hz
  · have hz := congrArg Quat.z h
    norm_num at hz

/-- Claim C2 (amended): apart from the quaternion/vector convenience operators
and the buffer-layout helpers, the binding performs no numeric computation:
the numeric data a wrapped C API call delivers is exactly what the native
entry point produced.  For `Headset_getGazeVector`, the delivered error code
and gaze vector are the native ones, unchanged; for `Headset_queryLicenses`,
every numeric expiration field delivered equals the corresponding field of the
native license record it was copied from. -/
theorem wrapper_numerics_come_from_native :
    (∀ (native : GazeVectorNative) (headset : Headset) (eye : Eye),
        (Headset_getGazeVector native headset eye).1 = native headset eye) ∧
    (∀ (native : QueryLicensesNative) (headset : Headset) (i : ℕ)
        (li : PyLicenseInfo),
        (Headset_queryLicenses native headset).1.1.getD i defaultPyLicenseInfo = li →
        i < (Headset_queryLicenses native headset).1.1.length →
        li.expirationYear =
          (((native.fill headset (native.probe headset).2).2.2).getD i default).expirationYear ∧
        li.expirationMonth =
          (((native.fill headset (native.probe headset).2).2.2).getD i default).expirationMonth ∧
        li.expirationDay =
          (((native.fill headset (native.probe headset).2).2.2).getD i default).expirationDay) := by
  refine ⟨fun native headset eye => rfl, fun native headset i li hli hlen => ?_⟩
  simp only [Headset_queryLicenses] at hli hlen
  by_cases h1 : (native.probe headset).1 ≠ ErrorCode.None
  · rw [if_pos h1] at hlen
    simp at hlen
  · rw [if_neg h1] at hli hlen
    by_cases h2 : (native.probe headset).2 = 0
    · rw [if_pos h2] at hlen
      simp at hlen
    · rw [if_neg h2] at hli hlen
      by_cases h3 : (native.fill headset (native.probe headset).2).1 ≠ ErrorCode.None
      · rw [if_pos h3] at hlen
        simp at hlen
      · rw [if_neg h3] at hli hlen
        dsimp only at hli hlen
        simp only [List.length_map, List.length_range, List.getD_eq_getElem?_getD,
          List.getElem?_map] at hli hlen
        rw [List.getElem?_range hlen] at hli
        subst hli
        simp only [List.getD_eq_getElem?_getD]
        exact ⟨rfl, rfl, rfl⟩

/-- Counterexample to claim C1 as stated: a call to `Headset_queryLicenses` is
not always a single native invocation.  With a native oracle whose probe
succeeds reporting one license, the wrapper invokes
`fove_Headset_queryLicenses` twice (once for the count, once for the data). -/
theorem queryLicenses_invokes_native_twice :
    (Headset_queryLicenses oneLicenseNative 0).2.length = 2 ∧ (2 : ℕ) ≠ 1 :=
  ⟨rfl, by decide⟩

/-- Claim C1 (amended): every wrapper of `bind_CAPIs` invokes only its single
corresponding `fove_*` entry point, forwarding the caller's arguments
unchanged and delivering what the native call produced; simple wrappers such
as `Headset_getGazeVector` invoke it exactly once, while the sized-array query
`Headset_queryLicenses` invokes it once when the probe fails or reports zero
licenses and twice otherwise (count, then data), never more. -/
theorem capi_wrappers_forward_verbatim :
    (∀ (native : GazeVectorNative) (headset : Headset) (eye : Eye),
        (Headset_getGazeVector native headset eye).2 = [(headset, eye)] ∧
        (Headset_getGazeVector native headset eye).1 = native headset eye) ∧
    (∀ (native : QueryLicensesNative) (headset : Headset),
        (Headset_queryLicenses native headset).2.length ≤ 2 ∧
        ((Headset_queryLicenses native headset).2.length =
          if (native.probe headset).1 ≠ ErrorCode.None ∨ (native.probe headset).2 = 0
          then 1 else 2) ∧
        (Headset_queryLicenses native headset).2.head? = some (headset, none)) ∧
    (∀ (native : HardwareInfoNative) (headset : Headset),
        (Headset_queryHardwareInfo native headset).2 = [headset]) := by
  refine ⟨fun native headset eye => ⟨rfl, rfl⟩, fun native headset => ?_,
          fun native headset => rfl⟩
  simp only [Headset_queryLicenses]
  by_cases h1 : (native.probe headset).1 ≠ ErrorCode.None
  · rw [if_pos h1]
    refine ⟨by simp, ?_, rfl⟩
    rw [if_pos (Or.inl h1)]
    rfl
  · rw [if_neg h1]
    have hor : ¬((native.probe headset).1 ≠ ErrorCode.None ∨ (native.probe headset).2 = 0) ∨
        (native.probe headset).2 = 0 := by
      by_cases h2 : (native.probe headset).2 = 0
      · exact Or.inr h2
      · exact Or.inl (by push_neg; exact ⟨not_not.mp h1, h2⟩)
    by_cases h2 : (native.probe headset).2 = 0
    · rw [if_pos h2]
      refine ⟨by simp, ?_, rfl⟩
      rw [if_pos (Or.inr h2)]
      rfl
    · rw [if_neg h2]
      have hor2 : ¬((native.probe headset).1 ≠ ErrorCode.None ∨ (native.probe headset).2 = 0) :=
        hor.resolve_right h2
      by_cases h3 : (native.fill headset (native.probe headset).2).1 ≠ ErrorCode.None
      · rw [if_pos h3]
        refine ⟨by simp, ?_, rfl⟩
        rw [if_neg hor2]
        rfl
      · rw [if_neg h3]
        refine ⟨by simp, ?_, rfl⟩
        rw [if_neg hor2]
        rfl

/-- Claim C3: for the wrapped calls that can fail, the `Fove_ErrorCode`
delivered is exactly a code produced by the underlying native call, with no
remapping or recovery: `Headset_queryLicenses` stores the native code (of the
probe call or the fill call) unchanged in its error out-parameter and returns
an empty list whenever that code is not `None`; `Headset_queryHardwareInfo`
returns the native code unchanged after copying the three output strings. -/
theorem error_codes_forwarded_unchanged :
    (∀ (native : QueryLicensesNative) (headset : Headset),
        ((Headset_queryLicenses native headset).1.2 = (native.probe headset).1 ∨
         (Headset_queryLicenses native headset).1.2 =
           (native.fill headset (native.probe headset).2).1) ∧
        ((Headset_queryLicenses native headset).1.2 ≠ ErrorCode.None →
          (Headset_queryLicenses native headset).1.1 = [])) ∧
    (∀ (native : HardwareInfoNative) (headset : Headset),
        (Headset_queryHardwareInfo native headset).1.2 = (native headset).1 ∧
        (Headset_queryHardwareInfo native headset).1.1 =
          ⟨(native headset).2.1, (native headset).2.2.1, (native headset).2.2.2⟩) := by
  refine ⟨fun native headset => ?_, fun native headset => ⟨rfl, rfl⟩⟩
  simp only [Headset_queryLicenses]
  by_cases h1 : (native.probe headset).1 ≠ ErrorCode.None
  · rw [if_pos h1]
    exact ⟨Or.inl rfl, fun _ => rfl⟩
  · rw [if_neg h1]
    by_cases h2 : (native.probe headset).2 = 0
    · rw [if_pos h2]
      exact ⟨Or.inl rfl, fun _ => rfl⟩
    · rw [if_neg h2]
      by_cases h3 : (native.fill headset (native.probe headset).2).1 ≠ ErrorCode.None
      · rw [if_pos h3]
        exact ⟨Or.inr rfl, fun _ => rfl⟩
      · rw [if_neg h3]
        refine ⟨Or.inr rfl, fun hne => absurd ?_ hne⟩
        exact not_not.mp h3

/-- Witness for claim C3, at a native oracle whose probe call fails with
`Connect_NotConnected`: the stored error is not `None` and the delivered
license list is empty. -/
theorem error_codes_forwarded_unchanged_witness :
    (Headset_queryLicenses failingLicenseNative 0).1.2 ≠ ErrorCode.None ∧
    (Headset_queryLicenses failingLicenseNative 0).1.1 = [] :=
  ⟨by decide, (error_codes_forwarded_unchanged.1 failingLicenseNative 0).2 (by decide)⟩

/-- Helper: a euclidean decomposition `i * cols + j` with `j < cols` determines
`i` and `j` uniquely. -/
theorem mul_add_divmod_unique {cols i j k : ℕ} (hj : j < cols) (hk : i * cols + j = k) :
    i = k / cols ∧ j = k % cols := by
  have hc : 0 < cols := lt_of_le_of_lt (Nat.zero_le j) hj
  have h1 : (i * cols + j) / cols = i := by
    rw [mul_comm, Nat.mul_add_div hc, Nat.div_eq_of_lt hj]
    omega
  have h2 : (i * cols + j) % cols = j := by
    rw [mul_comm, Nat.mul_add_mod, Nat.mod_eq_of_lt hj]
  rw [hk] at h1 h2
  exact ⟨h1.symm, h2.symm⟩

/-- Claim C5: the buffer-protocol helper conversions are exact.
`define_1D_buffer_protocol` on `Elem[Size]` yields a 1-dimensional descriptor
with item size `sizeof(Elem)`, dimension `Size` and stride `sizeof(Elem)`;
`define_2D_buffer_protocol` on `Elem[Rows][Cols]` yields a 2-dimensional
descriptor with dimensions `{Rows, Cols}` and strides
`{sizeof(Elem)*Cols, sizeof(Elem)}`.  Under these strides the index `i` (resp.
`(i, j)`) addresses byte offset `sizeof(Elem) * i` (resp.
`sizeof(Elem) * (i*Cols + j)`), every element offset of the native array is
addressed by exactly one in-range index, and each addressed element lies
inside the struct whose layout `assert_layout` certifies. -/
theorem buffer_protocol_exact (elemSize size rows cols : ℕ) (hes : 0 < elemSize) :
    define_1D_buffer_protocol elemSize size = ⟨elemSize, 1, [size], [elemSize]⟩ ∧
    define_2D_buffer_protocol elemSize rows cols =
      ⟨elemSize, 2, [rows, cols], [elemSize * cols, elemSize]⟩ ∧
    (∀ i, bufOffset (define_1D_buffer_protocol elemSize size) [i] = elemSize * i) ∧
    (∀ k, k < size →
      ∃! i, i < size ∧ bufOffset (define_1D_buffer_protocol elemSize size) [i] = elemSize * k) ∧
    (∀ i j, bufOffset (define_2D_buffer_protocol elemSize rows cols) [i, j] =
      elemSize * (i * cols + j)) ∧
    (∀ k, k < rows * cols →
      ∃! ij : ℕ × ℕ, ij.1 < rows ∧ ij.2 < cols ∧
        bufOffset (define_2D_buffer_protocol elemSize rows cols) [ij.1, ij.2] = elemSize * k) ∧
    (∀ structSize, assert_layout structSize elemSize size →
      ∀ i, i < size →
        bufOffset (define_1D_buffer_protocol elemSize size) [i] + elemSize ≤ structSize) := by
  have hoff1 : ∀ i, bufOffset (define_1D_buffer_protocol elemSize size) [i] = elemSize * i := by
    intro i
    simp only [bufOffset, define_1D_buffer_protocol, List.zip_cons_cons, List.zip_nil_right,
      List.foldr_cons, List.foldr_nil]
    ring
  have hoff2 : ∀ i j, bufOffset (define_2D_buffer_protocol elemSize rows cols) [i, j] =
      elemSize * (i * cols + j) := by
    intro i j
    simp only [bufOffset, define_2D_buffer_protocol, List.zip_cons_cons, List.zip_nil_right,
      List.foldr_cons, List.foldr_nil]
    ring
  refine ⟨rfl, rfl, hoff1, fun k hk => ?_, hoff2, fun k hk => ?_, fun structSize hlay i hi => ?_⟩
  · refine ⟨k, ⟨hk, hoff1 k⟩, fun i hi => ?_⟩
    have := hi.2
    rw [hoff1 i] at this
    exact Nat.eq_of_mul_eq_mul_left hes this
  · have hc : 0 < cols := by
      rcases Nat.eq_zero_or_pos cols with h | h
      · subst h
        simp at hk
      · exact h
    refine ⟨(k / cols, k % cols), ⟨?_, Nat.mod_lt _ hc, ?_⟩, ?_⟩
    · exact (Nat.div_lt_iff_lt_mul hc).mpr hk
    · rw [hoff2]
      congr 1
      rw [mul_comm (k / cols) cols]
      exact Nat.div_add_mod k cols
    · rintro ⟨i, j⟩ ⟨hi, hj, hoff⟩
      rw [hoff2] at hoff
      have hsum : i * cols + j = k := Nat.eq_of_mul_eq_mul_left hes hoff
      have := mul_add_divmod_unique hj hsum
      simp only [Prod.mk.injEq]
      exact this
  · rw [hoff1]
    have h1 : elemSize * i + elemSize = elemSize * (i + 1) := by ring
    rw [assert_layout] at hlay
    rw [h1, hlay, mul_comm size elemSize]
    exact Nat.mul_le_mul_left elemSize hi

/-- Witness for claim C5, for 4-byte elements (`float`/`unsigned int`), a
1-D array of 5 elements and a 2-D array of 2 rows and 3 columns. -/
theorem buffer_protocol_exact_witness :
    (0 : ℕ) < 4 ∧
    (define_1D_buffer_protocol 4 5 = ⟨4, 1, [5], [4]⟩ ∧
     define_2D_buffer_protocol 4 2 3 = ⟨4, 2, [2, 3], [4 * 3, 4]⟩ ∧
     (∀ i, bufOffset (define_1D_buffer_protocol 4 5) [i] = 4 * i) ∧
     (∀ k, k < 5 →
       ∃! i, i < 5 ∧ bufOffset (define_1D_buffer_protocol 4 5) [i] = 4 * k) ∧
     (∀ i j, bufOffset (define_2D_buffer_protocol 4 2 3) [i, j] = 4 * (i * 3 + j)) ∧
     (∀ k, k < 2 * 3 →
       ∃! ij : ℕ × ℕ, ij.1 < 2 ∧ ij.2 < 3 ∧
         bufOffset (define_2D_buffer_protocol 4 2 3) [ij.1, ij.2] = 4 * k) ∧
     (∀ structSize, assert_layout structSize 4 5 →
       ∀ i, i < 5 → bufOffset (define_1D_buffer_protocol 4 5) [i] + 4 ≤ structSize)) :=
  ⟨by decide, buffer_protocol_exact 4 5 2 3 (by decide)⟩

/-- Counterexample to claim C9 as stated: `IndexBuffer` construction does not
require an unsigned-int element format.  A contiguous 1-dimensional `float`
buffer of 3 elements (stride 4 bytes) is accepted, because the `IndexBuffer`
constructor never checks the format. -/
theorem indexBuffer_accepts_float_format :
    mkIndexBuffer ⟨0, BufFormat.f32, [3], [4]⟩ = Except.ok ⟨0, 1⟩ ∧
    BufFormat.f32 ≠ BufFormat.u32 := by
  exact ⟨rfl, by decide⟩

/-- Claim C9 (amended): constructing a `VertexBuffer` succeeds exactly when the
buffer is a contiguous 2-dimensional float array with 3 columns, and then its
`vertexCount` is 3 times the row count; constructing an `IndexBuffer` succeeds
exactly when the buffer is a contiguous 1-dimensional array of 4-byte elements
(the element format itself is not checked) whose element count is a multiple
of 3, and then its `triangleCount` is that count divided by 3; every other
input raises an exception. -/
theorem mesh_buffer_validation (b : PyBuffer) (hwf : b.strides.length = b.shape.length) :
    ((∃ v, mkVertexBuffer b = Except.ok v) ↔
      (b.format = BufFormat.f32 ∧ ∃ r, b.shape = [r, 3] ∧ b.strides = [12, 4])) ∧
    (∀ r, b.format = BufFormat.f32 → b.shape = [r, 3] → b.strides = [12, 4] →
      mkVertexBuffer b = Except.ok ⟨b.ptr, r * 3⟩) ∧
    ((∃ t, mkIndexBuffer b = Except.ok t) ↔
      (∃ n, b.shape = [n] ∧ b.strides = [4] ∧ n % 3 = 0)) ∧
    (∀ n, b.shape = [n] → b.strides = [4] → n % 3 = 0 →
      mkIndexBuffer b = Except.ok ⟨b.ptr, n / 3⟩) := by
  refine ⟨⟨fun hv => ?_, fun hv => ?_⟩, fun r hf hs hst => ?_, ⟨fun ht => ?_, fun ht => ?_⟩,
          fun n hs hst hn => ?_⟩
  · obtain ⟨v, hv⟩ := hv
    unfold mkVertexBuffer at hv
    by_cases h1 : b.format ≠ BufFormat.f32
    · rw [if_pos h1] at hv
      exact absurd hv (by simp)
    · rw [if_neg h1] at hv
      by_cases h2 : b.shape.length ≠ 2
      · rw [if_pos h2] at hv
        exact absurd hv (by simp)
      · rw [if_neg h2] at hv
        by_cases h3 : b.shape.getD 1 0 ≠ 3
        · rw [if_pos h3] at hv
          exact absurd hv (by simp)
        · rw [if_neg h3] at hv
          by_cases h4 : b.strides.getD 0 0 ≠ 3 * 4
          · rw [if_pos h4] at hv
            exact absurd hv (by simp)
          · rw [if_neg h4] at hv
            by_cases h5 : b.strides.getD 1 0 ≠ 4
            · rw [if_pos h5] at hv
              exact absurd hv (by simp)
            · obtain ⟨s0, s1, hsh⟩ := List.length_eq_two.mp (not_not.mp h2)
              have hstl : b.strides.length = 2 := by rw [hwf, not_not.mp h2]
              obtain ⟨t0, t1, hst⟩ := List.length_eq_two.mp hstl
              refine ⟨not_not.mp h1, s0, ?_, ?_⟩
              · rw [hsh]
                have : s1 = 3 := by
                  have h3e := not_not.mp h3
                  rwa [hsh] at h3e
                rw [this]
              · rw [hst]
                have ht0 : t0 = 12 := by
                  have h4e := not_not.mp h4
                  rwa [hst] at h4e
                have ht1 : t1 = 4 := by
                  have h5e := not_not.mp h5
                  rwa [hst] at h5e
                rw [ht0, ht1]
  · obtain ⟨hf, r, hsh, hst⟩ := hv
    exact ⟨⟨b.ptr, r * 3⟩, by unfold mkVertexBuffer; rw [hsh, hst]; simp [hf]⟩
  · unfold mkVertexBuffer
    rw [hs, hst]
    simp [hf]
  · obtain ⟨t, ht⟩ := ht
    unfold mkIndexBuffer at ht
    by_cases h1 : b.shape.length ≠ 1
    · rw [if_pos h1] at ht
      exact absurd ht (by simp)
    · rw [if_neg h1] at ht
      by_cases h2 : b.strides.getD 0 0 ≠ 4
      · rw [if_pos h2] at ht
        exact absurd ht (by simp)
      · rw [if_neg h2] at ht
        by_cases h3 : b.shape.getD 0 0 % 3 ≠ 0
        · rw [if_pos h3] at ht
          exact absurd ht (by simp)
        · obtain ⟨n, hsh⟩ := List.length_eq_one.mp (not_not.mp h1)
          have hstl : b.strides.length = 1 := by rw [hwf, not_not.mp h1]
          obtain ⟨t0, hst⟩ := List.length_eq_one.mp hstl
          refine ⟨n, hsh, ?_, ?_⟩
          · rw [hst]
            have ht0 : t0 = 4 := by
              have h2e := not_not.mp h2
              rwa [hst] at h2e
            rw [ht0]
          · have h3e := not_not.mp h3
            rwa [hsh] at h3e
  · obtain ⟨n, hsh, hst, hn⟩ := ht
    exact ⟨⟨b.ptr, n / 3⟩, by unfold mkIndexBuffer; rw [hsh, hst]; simp [hn]⟩
  · unfold mkIndexBuffer
    rw [hs, hst]
    simp [hn]

/-- Witness for claim C9, at a contiguous 2-row float buffer: the `VertexBuffer`
characterisation applies to it. -/
theorem mesh_buffer_validation_witness :
    ([12, 4] : List ℕ).length = ([2, 3] : List ℕ).length ∧
    ((∃ v, mkVertexBuffer ⟨7, BufFormat.f32, [2, 3], [12, 4]⟩ = Except.ok v) ↔
      (BufFormat.f32 = BufFormat.f32 ∧
        ∃ r, ([2, 3] : List ℕ) = [r, 3] ∧ ([12, 4] : List ℕ) = [12, 4])) :=
  ⟨by decide, (mesh_buffer_validation ⟨7, BufFormat.f32, [2, 3], [12, 4]⟩ (by decide)).1⟩

/-- Witness for claim C2, at a native oracle delivering one license: the
delivered managed record exists, and its numeric expiration fields equal the
native record's fields. -/
theorem wrapper_numerics_come_from_native_witness :
    (Headset_queryLicenses oneLicenseNative 0).1.1.getD 0 defaultPyLicenseInfo =
      toPyLicenseInfo sampleLicense ∧
    0 < (Headset_queryLicenses oneLicenseNative 0).1.1.length ∧
    ((toPyLicenseInfo sampleLicense).expirationYear =
      (((oneLicenseNative.fill 0 (oneLicenseNative.probe 0).2).2.2).getD 0
        default).expirationYear ∧
     (toPyLicenseInfo sampleLicense).expirationMonth =
      (((oneLicenseNative.fill 0 (oneLicenseNative.probe 0).2).2.2).getD 0
        default).expirationMonth ∧
     (toPyLicenseInfo sampleLicense).expirationDay =
      (((oneLicenseNative.fill 0 (oneLicenseNative.probe 0).2).2.2).getD 0
        default).expirationDay) :=
  ⟨by decide, by decide,
   wrapper_numerics_come_from_native.2 oneLicenseNative 0 0 (toPyLicenseInfo sampleLicense)
     (by decide) (by decide)⟩

/-- Claim C10: the `ClientCapabilities` flag operators form a consistent set
algebra on 32-bit capability patterns: `a.__sub__(b)` is `a & ~b` and shares
no bit with `b`; `a.__add__(b)` is `a.__or__(b)` and contains `b` under
`__contains__`; and `a.__contains__(b)` holds exactly when `(a & b) == b`. -/
theorem clientCapabilities_flag_algebra (a b : ℕ) (ha : a < 2 ^ 32) (hb : b < 2 ^ 32) :
    capSub a b = capAnd a (capNot b) ∧
    capAnd (capSub a b) b = 0 ∧
    capAdd a b = capOr a b ∧
    capContains (capAdd a b) b ∧
    (capContains a b ↔ capAnd a b = b) := by
  refine ⟨rfl, ?_, rfl, ?_, Iff.rfl⟩
  · apply Nat.eq_of_testBit_eq
    intro i
    simp only [capSub, capAnd, capNot, Nat.testBit_land, Nat.testBit_xor, Nat.zero_testBit,
      Nat.testBit_two_pow_sub_one]
    by_cases hi : i < 32
    · cases hab : Nat.testBit b i <;> simp [hi, hab]
    · have hia : Nat.testBit a i = false := by
        refine Nat.testBit_eq_false_of_lt (lt_of_lt_of_le ha ?_)
        exact Nat.pow_le_pow_right (by omega) (by omega)
      simp [hia]
  · show capAnd (capOr a b) b = b
    apply Nat.eq_of_testBit_eq
    intro i
    simp only [capAnd, capOr, Nat.testBit_land, Nat.testBit_lor]
    cases Nat.testBit a i <;> cases Nat.testBit b i <;> simp

/-- Witness for claim C10, at the capability patterns `3` (orientation and
position tracking) and `1`. -/
theorem clientCapabilities_flag_algebra_witness :
    (3 : ℕ) < 2 ^ 32 ∧ (1 : ℕ) < 2 ^ 32 ∧
    (capSub 3 1 = capAnd 3 (capNot 1) ∧
     capAnd (capSub 3 1) 1 = 0 ∧
     capAdd 3 1 = capOr 3 1 ∧
     capContains (capAdd 3 1) 1 ∧
     (capContains 3 1 ↔ capAnd 3 1 = 1)) :=
  ⟨by decide, by decide, clientCapabilities_flag_algebra 3 1 (by decide) (by decide)⟩

/-- Counterexample to claim C6 as stated: not every exposed type is a native
SDK type.  `ColliderArray` is registered by `defstruct_ColliderArray` and its
C++ type is a struct declared inside `bindings.cpp` itself (a `std::vector` of
`Fove_ObjectCollider`), so at least one exposed type originates on the binding
side. -/
theorem colliderArray_is_binding_defined :
    (⟨"ColliderArray", "ColliderArray", TypeOrigin.bindingDefined,
      some "Fove_ObjectCollider array"⟩ : ExposedType) ∈ exposedTypes ∧
    TypeOrigin.bindingDefined ≠ TypeOrigin.nativeSDK := by
  exact ⟨by decide, by decide⟩

/-- Claim C6 (amended): every struct and enum the binding exposes is either a
direct binding of a native SDK type or a binding-side marshaling helper that
exists only to carry native SDK data (an `Obj` out-parameter wrapper, a
`Python_*` mirror of a C-array-bearing native struct, or an array view used to
build native mesh data); each binding-defined type records the native data it
marshals. -/
theorem exposed_types_bind_or_marshal_native (t : ExposedType) (ht : t ∈ exposedTypes) :
    t.origin = TypeOrigin.nativeSDK ∨ t.marshals.isSome = true := by
  have h : ∀ u ∈ exposedTypes, u.origin = TypeOrigin.nativeSDK ∨ u.marshals.isSome = true := by
    decide
  exact h t ht

/-- Witness for claim C6, at the exposed `Versions` struct: it is in the
inventory and is a binding-side mirror of the native `Fove_Versions`. -/
theorem exposed_types_bind_or_marshal_native_witness :
    (⟨"Versions", "Python_Versions", TypeOrigin.bindingDefined,
      some "Fove_Versions"⟩ : ExposedType) ∈ exposedTypes ∧
    ((⟨"Versions", "Python_Versions", TypeOrigin.bindingDefined,
      some "Fove_Versions"⟩ : ExposedType).origin = TypeOrigin.nativeSDK ∨
     (⟨"Versions", "Python_Versions", TypeOrigin.bindingDefined,
      some "Fove_Versions"⟩ : ExposedType).marshals.isSome = true) :=
  ⟨by decide,
   exposed_types_bind_or_marshal_native
     ⟨"Versions", "Python_Versions", TypeOrigin.bindingDefined, some "Fove_Versions"⟩
     (by decide)⟩

end FoveBindings
